import Mathlib

/-!
Verification of the paginated news-feed screen (`src/app/(tabs)/index.tsx`).

The screen keeps four pieces of feed state (`news`, `loading`, `page`,
`hasMore`), a saved-articles list, and a view toggle.  `fetchNews` is an
async function whose effect on the state is atomic between its suspension
points because the `loading` flag gates re-entry; we embed it as a pure
state transformer parameterised by the outcome of the network round trip.
AsyncStorage holds at most one blob under the fixed key; a blob either
deserializes to a list of articles or makes `JSON.parse` throw, which we
model with the `Blob` type.
-/

/-- The `NewsArticle` record type of the source. -/
structure NewsArticle where
  title : String
  description : String
  urlToImage : String
  url : String
deriving DecidableEq, Repr

/-- The feed-related component state of `NewsScreen`:
`news`, `loading`, `page`, `hasMore`. -/
structure FeedState where
  news : List NewsArticle
  loading : Bool
  page : Nat
  hasMore : Bool
deriving DecidableEq, Repr

/-- Initial state: `news = []`, `loading = false`, `page = 1`,
`hasMore = true`. -/
def initialFeedState : FeedState :=
  { news := [], loading := false, page := 1, hasMore := true }

/-- Outcome of one network round trip of `fetchNews`:
either `response.json()` yields an object whose `articles` field is present
(`success (some l)`) or absent (`success none`), or the fetch or the JSON
parse throws (`failure`). -/
inductive FetchResult where
  | success : Option (List NewsArticle) → FetchResult
  | failure : FetchResult
deriving DecidableEq, Repr

/-- `setLoading(true)` at the top of `fetchNews`. -/
def startFetch (s : FeedState) : FeedState :=
  { s with loading := true }

/-- The try/catch body of `fetchNews`: on success with a non-empty
`data.articles`, append it to `news`; on an empty or absent list, set
`hasMore := false`; on a thrown error, only log (no state change). -/
def fetchBody (s : FeedState) (r : FetchResult) : FeedState :=
  match r with
  | FetchResult.success (some l) =>
      if l.length > 0 then { s with news := s.news ++ l }
      else { s with hasMore := false }
  | FetchResult.success none => { s with hasMore := false }
  | FetchResult.failure => s

/-- The `finally` block: `setLoading(false)`. -/
def finishFetch (s : FeedState) : FeedState :=
  { s with loading := false }

/-- `fetchNews(pageNumber)` as a state transformer.  The returned `Bool`
records whether a network request was actually issued: the guard
`if (loading || !hasMore) return;` makes the call a no-op otherwise. -/
def fetchNews (s : FeedState) (pageNumber : Nat) (r : FetchResult) :
    FeedState × Bool :=
  if s.loading || !s.hasMore then (s, false)
  else (finishFetch (fetchBody (startFetch s) r), true)

/-- `isCloseToBottom` from `handleScroll`:
`layoutMeasurement.height + contentOffset.y >= contentSize.height - 20`. -/
def isCloseToBottom (layoutHeight contentOffsetY contentHeight : Int) : Bool :=
  decide (layoutHeight + contentOffsetY ≥ contentHeight - 20)

/-- `handleScroll`: advance the page by one exactly when close to the
bottom, `hasMore` holds and no fetch is outstanding. -/
def handleScroll (s : FeedState)
    (layoutHeight contentOffsetY contentHeight : Int) : FeedState :=
  if isCloseToBottom layoutHeight contentOffsetY contentHeight
      && s.hasMore && !s.loading
  then { s with page := s.page + 1 }
  else s

/-- A persisted blob under the `savedArticles` key: either it deserializes
to a list of articles (`good`) or `JSON.parse` throws on it (`bad`). -/
inductive Blob where
  | good : List NewsArticle → Blob
  | bad : Blob
deriving DecidableEq, Repr

/-- The read-and-parse step `saved ? JSON.parse(saved) : []` shared by
`saveArticle` and `getSavedArticles`: `none` means the parse threw. -/
def parseStored : Option Blob → Option (List NewsArticle)
  | none => some []
  | some (Blob.good l) => some l
  | some Blob.bad => none

/-- `saveArticle(article)`: read the persisted list, append the article,
write the list back, then `alert('Saved!')`.  Any thrown error is caught
and only logged.  `writeOk` is whether `AsyncStorage.setItem` succeeds; the
returned `Bool` is whether the alert was shown. -/
def saveArticle (store : Option Blob) (writeOk : Bool)
    (article : NewsArticle) : Option Blob × Bool :=
  match parseStored store with
  | none => (store, false)
  | some articlesArray =>
      if writeOk then (some (Blob.good (articlesArray ++ [article])), true)
      else (store, false)

/-- `getSavedArticles()`: read and parse the persisted list and store it in
the `savedArticles` state; a thrown error is caught and only logged, so the
previous `savedArticles` value is kept. -/
def getSavedArticles (store : Option Blob)
    (savedArticles : List NewsArticle) : List NewsArticle :=
  match parseStored store with
  | none => savedArticles
  | some articles => articles

/-- The component state relevant to the feed/saved toggle. -/
structure AppState where
  feed : FeedState
  savedArticles : List NewsArticle
  viewingSaved : Bool
deriving DecidableEq, Repr

/-- `toggleView`: from Saved just clear the flag; from Feed load the saved
articles from the store and set the flag. -/
def toggleView (app : AppState) (store : Option Blob) : AppState :=
  if app.viewingSaved then { app with viewingSaved := false }
  else { app with
          savedArticles := getSavedArticles store app.savedArticles,
          viewingSaved := true }

/-- The list the screen renders: `savedArticles` in Saved mode, `news`
otherwise. -/
def renderedList (app : AppState) : List NewsArticle :=
  if app.viewingSaved then app.savedArticles else app.feed.news

/-- One session event touching the feed state: a `fetchNews` invocation
(with the outcome of its round trip) or a scroll event. -/
inductive Event where
  | fetchEv : Nat → FetchResult → Event
  | scrollEv : Int → Int → Int → Event
deriving Repr

/-- Apply one event; the `Bool` records whether a network request was
issued (scroll events issue none themselves). -/
def applyEvent (s : FeedState) : Event → FeedState × Bool
  | Event.fetchEv n r => fetchNews s n r
  | Event.scrollEv l o c => (handleScroll s l o c, false)

/-- Run a list of events; the `Bool` records whether any of them issued a
network request. -/
def runEvents (s : FeedState) : List Event → FeedState × Bool
  | [] => (s, false)
  | e :: es =>
      let p := applyEvent s e
      let q := runEvents p.1 es
      (q.1, p.2 || q.2)

/-- Run a sequence of successful fetches, page `p.1` returning article
list `p.2`. -/
def runFetchPages (s : FeedState) : List (Nat × List NewsArticle) → FeedState
  | [] => s
  | p :: ps =>
      runFetchPages (fetchNews s p.1 (FetchResult.success (some p.2))).1 ps

/-- Sample articles used by concrete witnesses. -/
def sampleA : NewsArticle :=
  { title := "a", description := "da", urlToImage := "ia", url := "ua" }

def sampleB : NewsArticle :=
  { title := "b", description := "db", urlToImage := "ib", url := "ub" }

def sampleC : NewsArticle :=
  { title := "c", description := "dc", urlToImage := "ic", url := "uc" }

/-- Sample app state used by concrete witnesses. -/
def sampleApp : AppState :=
  { feed := initialFeedState, savedArticles := [sampleA],
    viewingSaved := false }

lemma fetchNews_noop (s : FeedState) (n : Nat) (r : FetchResult)
    (h : s.loading = true ∨ s.hasMore = false) :
    fetchNews s n r = (s, false) := by
  unfold fetchNews
  rcases h with h | h <;> simp [h]

lemma fetchNews_success_nonempty (s : FeedState) (n : Nat)
    (l : List NewsArticle) (hl : l ≠ [])
    (h1 : s.loading = false) (h2 : s.hasMore = true) :
    fetchNews s n (FetchResult.success (some l)) =
      ({ s with news := s.news ++ l, loading := false }, true) := by
  unfold fetchNews startFetch fetchBody finishFetch
  simp [h1, h2, List.length_pos.mpr hl]

lemma runFetchPages_spec (ps : List (Nat × List NewsArticle)) :
    ∀ s : FeedState, (∀ p ∈ ps, p.2 ≠ []) →
      s.loading = false → s.hasMore = true →
      (runFetchPages s ps).news = s.news ++ (ps.map Prod.snd).flatten ∧
      (runFetchPages s ps).loading = false ∧
      (runFetchPages s ps).hasMore = true := by
  induction ps with
  | nil =>
      intro s _ h1 h2
      exact ⟨by simp [runFetchPages], by simpa [runFetchPages], by simpa [runFetchPages]⟩
  | cons p ps ih =>
      intro s h h1 h2
      have hp : p.2 ≠ [] := h p (List.mem_cons_self _ _)
      have hrest : ∀ q ∈ ps, q.2 ≠ [] := fun q hq => h q (List.mem_cons_of_mem _ hq)
      rw [runFetchPages, fetchNews_success_nonempty s p.1 p.2 hp h1 h2]
      obtain ⟨e1, e2, e3⟩ :=
        ih { s with news := s.news ++ p.2, loading := false } hrest rfl h2
      refine ⟨?_, e2, e3⟩
      rw [e1]
      simp [List.append_assoc]

lemma hasMore_false_frozen (evs : List Event) :
    ∀ s : FeedState, s.hasMore = false →
      (runEvents s evs).1 = s ∧ (runEvents s evs).2 = false := by
  induction evs with
  | nil => intro s _; exact ⟨rfl, rfl⟩
  | cons e es ih =>
      intro s h
      have he : applyEvent s e = (s, false) := by
        cases e with
        | fetchEv n r => exact fetchNews_noop s n r (Or.inr h)
        | scrollEv l o c => simp [applyEvent, handleScroll, h]
      obtain ⟨ih1, ih2⟩ := ih s h
      simp [runEvents, he, ih1, ih2]

/-- Claim C1: for every sequence of successful fetches each returning a
non-empty article list, the feed article list after the sequence is the
concatenation of the returned pages in arrival order (so its length is the
sum of the page lengths), with no reordering and no deduplication. -/
theorem claim_C1 (ps : List (Nat × List NewsArticle))
    (h : ∀ p ∈ ps, p.2 ≠ []) :
    (runFetchPages initialFeedState ps).news = (ps.map Prod.snd).flatten ∧
    (runFetchPages initialFeedState ps).news.length
      = (ps.map fun p => p.2.length).sum := by
  obtain ⟨e1, -, -⟩ := runFetchPages_spec ps initialFeedState h rfl rfl
  have e1' : (runFetchPages initialFeedState ps).news = (ps.map Prod.snd).flatten := by
    simpa [initialFeedState] using e1
  refine ⟨e1', ?_⟩
  rw [e1', List.length_flatten, List.map_map]
  rfl

/-- Witness for C1: two concrete pages of one and two articles. -/
theorem claim_C1_witness :
    (runFetchPages initialFeedState
        [(1, [sampleA]), (2, [sampleB, sampleC])]).news
      = [sampleA, sampleB, sampleC] ∧
    (runFetchPages initialFeedState
        [(1, [sampleA]), (2, [sampleB, sampleC])]).news.length = 3 :=
  ⟨((claim_C1 [(1, [sampleA]), (2, [sampleB, sampleC])] (by decide)).1).trans
      (by decide),
   ((claim_C1 [(1, [sampleA]), (2, [sampleB, sampleC])] (by decide)).2).trans
      (by decide)⟩

/-- Claim C2: a guarded fetch completing with an empty or absent article
list sets `hasMore` to false, and every state reachable from it by further
session events keeps `hasMore = false` and issues no further network
request. -/
theorem claim_C2 (s : FeedState) (n : Nat) (r : FetchResult)
    (evs : List Event)
    (h1 : s.loading = false) (h2 : s.hasMore = true)
    (hr : r = FetchResult.success none ∨ r = FetchResult.success (some [])) :
    (fetchNews s n r).1.hasMore = false ∧
    (runEvents (fetchNews s n r).1 evs).1.hasMore = false ∧
    (runEvents (fetchNews s n r).1 evs).2 = false := by
  have hm : (fetchNews s n r).1.hasMore = false := by
    rcases hr with hr | hr <;> subst hr <;>
      simp [fetchNews, h1, h2, startFetch, fetchBody, finishFetch]
  obtain ⟨e1, e2⟩ := hasMore_false_frozen evs (fetchNews s n r).1 hm
  exact ⟨hm, by rw [e1]; exact hm, e2⟩

/-- Witness for C2: an absent page at the initial state, followed by a
fetch attempt and a scroll. -/
theorem claim_C2_witness :
    (fetchNews initialFeedState 1 (FetchResult.success none)).1.hasMore
      = false ∧
    (runEvents (fetchNews initialFeedState 1 (FetchResult.success none)).1
        [Event.fetchEv 2 FetchResult.failure,
         Event.scrollEv 800 180 1000]).1.hasMore = false ∧
    (runEvents (fetchNews initialFeedState 1 (FetchResult.success none)).1
        [Event.fetchEv 2 FetchResult.failure,
         Event.scrollEv 800 180 1000]).2 = false :=
  claim_C2 initialFeedState 1 (FetchResult.success none)
    [Event.fetchEv 2 FetchResult.failure, Event.scrollEv 800 180 1000]
    rfl rfl (Or.inl rfl)

/-- Claim C3: calling `fetchNews` while `loading` is true or `hasMore` is
false is a complete no-op: no request is issued and the state is returned
unchanged in every component. -/
theorem claim_C3 (s : FeedState) (n : Nat) (r : FetchResult)
    (h : s.loading = true ∨ s.hasMore = false) :
    fetchNews s n r = (s, false) :=
  fetchNews_noop s n r h

/-- Witness for C3: a call while a fetch is outstanding. -/
theorem claim_C3_witness :
    fetchNews { initialFeedState with loading := true } 5
        (FetchResult.success (some [sampleA])) =
      ({ initialFeedState with loading := true }, false) :=
  claim_C3 { initialFeedState with loading := true } 5
    (FetchResult.success (some [sampleA])) (Or.inl rfl)

/-- Counterexample to C4 as stated: when the stored blob fails to parse
and the saved-articles state previously held an article, the saved list
after `getSavedArticles` is that previous list, not the empty list. -/
theorem claim_C4_counterexample :
    ¬ getSavedArticles (some Blob.bad) [sampleA] = [] := by
  decide

/-- Claim C4 (amended): `getSavedArticles` yields the empty list when
nothing is stored, the parsed list when the blob parses, and on a parse
failure it only logs and leaves the saved-articles state unchanged. -/
theorem claim_C4 (prev l : List NewsArticle) :
    getSavedArticles none prev = [] ∧
    getSavedArticles (some (Blob.good l)) prev = l ∧
    getSavedArticles (some Blob.bad) prev = prev :=
  ⟨rfl, rfl, rfl⟩

/-- Claim C5: every `fetchNews` invocation that passes the entry guard
sets `loading` to true, runs the body from that state, and finishes with
`loading = false` on every exit path (any `FetchResult`). -/
theorem claim_C5 (s : FeedState) (n : Nat) (r : FetchResult)
    (h1 : s.loading = false) (h2 : s.hasMore = true) :
    (startFetch s).loading = true ∧
    (fetchNews s n r).1 = finishFetch (fetchBody (startFetch s) r) ∧
    (fetchNews s n r).1.loading = false := by
  refine ⟨rfl, ?_, ?_⟩
  · simp [fetchNews, h1, h2]
  · simp [fetchNews, h1, h2, finishFetch]

/-- Witness for C5: a failing fetch from the initial state. -/
theorem claim_C5_witness :
    (startFetch initialFeedState).loading = true ∧
    (fetchNews initialFeedState 1 FetchResult.failure).1
      = finishFetch
          (fetchBody (startFetch initialFeedState) FetchResult.failure) ∧
    (fetchNews initialFeedState 1 FetchResult.failure).1.loading = false :=
  claim_C5 initialFeedState 1 FetchResult.failure rfl rfl

/-- Claim C9: on a transport or parse failure, a guarded fetch leaves the
article list, `hasMore` and `page` exactly as they were and only releases
the `loading` flag. -/
theorem claim_C9 (s : FeedState) (n : Nat)
    (h1 : s.loading = false) (h2 : s.hasMore = true) :
    (fetchNews s n FetchResult.failure).1.news = s.news ∧
    (fetchNews s n FetchResult.failure).1.hasMore = s.hasMore ∧
    (fetchNews s n FetchResult.failure).1.page = s.page ∧
    (fetchNews s n FetchResult.failure).1.loading = false := by
  simp [fetchNews, h1, h2, startFetch, fetchBody, finishFetch]

/-- Witness for C9: a failing fetch from a state with one article. -/
theorem claim_C9_witness :
    (fetchNews { initialFeedState with news := [sampleA] } 7
        FetchResult.failure).1.news
      = ({ initialFeedState with news := [sampleA] } : FeedState).news ∧
    (fetchNews { initialFeedState with news := [sampleA] } 7
        FetchResult.failure).1.hasMore
      = ({ initialFeedState with news := [sampleA] } : FeedState).hasMore ∧
    (fetchNews { initialFeedState with news := [sampleA] } 7
        FetchResult.failure).1.page
      = ({ initialFeedState with news := [sampleA] } : FeedState).page ∧
    (fetchNews { initialFeedState with news := [sampleA] } 7
        FetchResult.failure).1.loading = false :=
  claim_C9 { initialFeedState with news := [sampleA] } 7 rfl rfl

/-- Claim C6: for any persisted state satisfying the data-model invariant
(absent or a parseable list `l`), saving an article and reading all
bookmarks yields `l ++ [a]`, whose last element is `a`; saving it twice
yields `l ++ [a, a]`, i.e. two more copies of `a` than before (no
deduplication). -/
theorem claim_C6 (store : Option Blob) (l : List NewsArticle)
    (a : NewsArticle) (h : parseStored store = some l) :
    getSavedArticles (saveArticle store true a).1 [] = l ++ [a] ∧
    (getSavedArticles (saveArticle store true a).1 []).getLast?
      = some a ∧
    getSavedArticles
        (saveArticle (saveArticle store true a).1 true a).1 []
      = l ++ [a, a] ∧
    (getSavedArticles
        (saveArticle (saveArticle store true a).1 true a).1 []).count a
      = l.count a + 2 := by
  have e1 : saveArticle store true a = (some (Blob.good (l ++ [a])), true) := by
    simp [saveArticle, h]
  have e2 : saveArticle (some (Blob.good (l ++ [a]))) true a
      = (some (Blob.good ((l ++ [a]) ++ [a])), true) := by
    simp [saveArticle, parseStored]
  refine ⟨?_, ?_, ?_, ?_⟩
  · rw [e1]
    rfl
  · rw [e1]
    show (l ++ [a]).getLast? = some a
    simp
  · rw [e1, e2]
    show (l ++ [a]) ++ [a] = l ++ [a, a]
    simp
  · rw [e1, e2]
    show ((l ++ [a]) ++ [a]).count a = l.count a + 2
    simp [List.count_append, List.count_cons]

/-- Witness for C6: saving `sampleA` over a store holding `sampleB`. -/
theorem claim_C6_witness :
    getSavedArticles
        (saveArticle (some (Blob.good [sampleB])) true sampleA).1 []
      = [sampleB] ++ [sampleA] ∧
    (getSavedArticles
        (saveArticle (some (Blob.good [sampleB])) true sampleA).1 []).getLast?
      = some sampleA ∧
    getSavedArticles
        (saveArticle
          (saveArticle (some (Blob.good [sampleB])) true sampleA).1
          true sampleA).1 []
      = [sampleB] ++ [sampleA, sampleA] ∧
    (getSavedArticles
        (saveArticle
          (saveArticle (some (Blob.good [sampleB])) true sampleA).1
          true sampleA).1 []).count sampleA
      = ([sampleB] : List NewsArticle).count sampleA + 2 :=
  claim_C6 (some (Blob.good [sampleB])) [sampleB] sampleA rfl

/-- Claim C7: the near-bottom predicate holds exactly when
`offset + viewportHeight >= contentHeight - 20`; with viewport height 800
and content height 1000, offset 180 gives true and 179 gives false; and
`handleScroll` advances the page by 1 exactly when the predicate holds,
`hasMore` is true and `loading` is false. -/
theorem claim_C7 (s : FeedState)
    (layoutHeight contentOffsetY contentHeight : Int) :
    (isCloseToBottom layoutHeight contentOffsetY contentHeight = true ↔
      contentOffsetY + layoutHeight ≥ contentHeight - 20) ∧
    isCloseToBottom 800 180 1000 = true ∧
    isCloseToBottom 800 179 1000 = false ∧
    ((handleScroll s layoutHeight contentOffsetY contentHeight).page
        = s.page + 1 ↔
      (isCloseToBottom layoutHeight contentOffsetY contentHeight = true ∧
        s.hasMore = true ∧ s.loading = false)) := by
  refine ⟨?_, by decide, by decide, ?_⟩
  · simp only [isCloseToBottom, decide_eq_true_eq]
    omega
  · unfold handleScroll
    split
    · rename_i hcond
      simp only [Bool.and_eq_true, Bool.not_eq_true'] at hcond
      obtain ⟨⟨hb1, hb2⟩, hb3⟩ := hcond
      simp [hb1, hb2, hb3]
    · rename_i hcond
      simp only [Bool.and_eq_true, Bool.not_eq_true'] at hcond
      constructor
      · intro hp
        exact absurd hp (by omega)
      · intro hc
        exact absurd ⟨⟨hc.1, hc.2.1⟩, hc.2.2⟩ hcond

/-- Witness for C7: the boundary scenario at the initial state. -/
theorem claim_C7_witness :
    isCloseToBottom 800 180 1000 = true ∧
    isCloseToBottom 800 179 1000 = false ∧
    (handleScroll initialFeedState 800 180 1000).page
      = initialFeedState.page + 1 :=
  ⟨(claim_C7 initialFeedState 800 180 1000).2.1,
   (claim_C7 initialFeedState 800 180 1000).2.2.1,
   (claim_C7 initialFeedState 800 180 1000).2.2.2.mpr
     ⟨by decide, rfl, rfl⟩⟩

/-- Claim C8: toggling Feed to Saved and back leaves the feed state (news,
page, hasMore, loading) unchanged; the Saved-to-Feed transition only clears
the flag and reloads nothing; and toggling to Saved over an empty persisted
store renders an empty saved list. -/
theorem claim_C8 (app b : AppState) (store : Option Blob)
    (h : app.viewingSaved = false) (hb : b.viewingSaved = true) :
    (toggleView app store).feed = app.feed ∧
    (toggleView (toggleView app store) store).feed = app.feed ∧
    (toggleView (toggleView app store) store).viewingSaved = false ∧
    toggleView b store = { b with viewingSaved := false } ∧
    (store = none → renderedList (toggleView app store) = []) := by
  refine ⟨?_, ?_, ?_, ?_, ?_⟩
  · simp [toggleView, h]
  · simp [toggleView, h]
  · simp [toggleView, h]
  · simp [toggleView, hb]
  · intro hs
    subst hs
    simp [toggleView, h, renderedList, getSavedArticles, parseStored]

/-- Witness for C8: sample app state with a stale saved list and an empty
store. -/
theorem claim_C8_witness :
    (toggleView sampleApp none).feed = sampleApp.feed ∧
    (toggleView (toggleView sampleApp none) none).feed = sampleApp.feed ∧
    renderedList (toggleView sampleApp none) = [] :=
  ⟨(claim_C8 sampleApp { sampleApp with viewingSaved := true } none
      rfl rfl).1,
   (claim_C8 sampleApp { sampleApp with viewingSaved := true } none
      rfl rfl).2.1,
   (claim_C8 sampleApp { sampleApp with viewingSaved := true } none
      rfl rfl).2.2.2.2 rfl⟩

/-- Claim C10: if the read or the parse of the persisted blob fails during
`saveArticle`, no write is issued (the blob is unchanged) and no
confirmation alert is shown; the alert is shown only when the write has
completed successfully, in which case the new blob is the parsed list with
the article appended. -/
theorem claim_C10 (store : Option Blob) (writeOk : Bool)
    (a : NewsArticle) :
    (parseStored store = none → saveArticle store writeOk a = (store, false)) ∧
    ((saveArticle store writeOk a).2 = true →
      writeOk = true ∧
      (saveArticle store writeOk a).1
        = some (Blob.good ((parseStored store).getD [] ++ [a]))) := by
  constructor
  · intro h
    simp [saveArticle, h]
  · intro h
    cases hp : parseStored store with
    | none =>
        rw [show saveArticle store writeOk a = (store, false) from by
          simp [saveArticle, hp]] at h
        simp at h
    | some l =>
        have e : saveArticle store writeOk a
            = if writeOk then (some (Blob.good (l ++ [a])), true)
              else (store, false) := by
          simp [saveArticle, hp]
        cases writeOk with
        | false => rw [e] at h; simp at h
        | true =>
            refine ⟨rfl, ?_⟩
            rw [e]
            simp

/-- Witness for C10: a bad blob blocks the write and the alert; a save over
an empty store alerts and writes the singleton list. -/
theorem claim_C10_witness :
    saveArticle (some Blob.bad) true sampleA = (some Blob.bad, false) ∧
    (saveArticle none true sampleA).1 = some (Blob.good [sampleA]) :=
  ⟨(claim_C10 (some Blob.bad) true sampleA).1 rfl,
   ((claim_C10 none true sampleA).2 rfl).2⟩
